import Mathlib

/-!
Verification development for the Mochi voice-companion core.

The TypeScript source is embedded shallowly:
* pure helpers (`createBlob`, `decodeAudioData`, the weather parser, the
  alarm bookkeeping) become Lean functions over `List`/`String`/`ℚ`/`ℤ`;
* the `onmessage` callback of `startLiveSession` becomes a step function
  `handleMessage` over an explicit `SessionState`, with the observable
  callbacks (`onStateChange`, `onTranscriptionUpdate`, `onHistoryUpdate`)
  modelled as an `Output` trace;
* `stopLiveSession` becomes a teardown function parametrised by which
  release step throws, mirroring the absence of try/catch in the source;
* JavaScript machine conversions (`Int16Array` element coercion, typed-array
  reinterpretation) are modelled with explicit `% 2^16` arithmetic on `ℤ`.
-/

set_option maxRecDepth 16000

namespace Mochi

deriving instance DecidableEq for Except

/-- JS `String.prototype.toLowerCase` on a character, restricted to ASCII
letters plus the precomposed Vietnamese letters that occur in the phrase
constants of the repository (`tạm biệt`, `mochi ơi`). -/
def jsLowerChar (c : Char) : Char :=
  if c = 'Ạ' then 'ạ'
  else if c = 'Ệ' then 'ệ'
  else if c = 'Ơ' then 'ơ'
  else c.toLower

/-- JS `String.prototype.toLowerCase` (see `jsLowerChar` for the covered
character range). -/
def jsToLower (s : String) : String := String.mk (s.toList.map jsLowerChar)

/-- JS `String.prototype.toUpperCase`, ASCII part: the source only compares
the result against the ASCII sentinel `NULL`. -/
def jsToUpper (s : String) : String := String.mk (s.toList.map Char.toUpper)

/-- JS `String.prototype.trim`: drop whitespace from both ends. -/
def jsTrim (s : String) : String :=
  String.mk (((s.toList.dropWhile Char.isWhitespace).reverse.dropWhile
      Char.isWhitespace).reverse)

/-- JS `String.prototype.split` with a single-character separator: split
into the (possibly empty) groups between occurrences of `sep`. -/
def splitOnChar (sep : Char) : List Char → List (List Char)
  | [] => [[]]
  | c :: rest =>
    let r := splitOnChar sep rest
    if c = sep then [] :: r
    else
      match r with
      | [] => [[c]]
      | g :: gs => (c :: g) :: gs

/-- JS `s.split(sep)` for a one-character separator. -/
def jsSplit (s : String) (sep : Char) : List String :=
  (splitOnChar sep s.toList).map String.mk

/-- Does `hay` start with `needle`? (helper for `jsIncludes`). -/
def charsStartWith : List Char → List Char → Bool
  | [], _ => true
  | _ :: _, [] => false
  | n :: ns, h :: hs => n == h && charsStartWith ns hs

/-- Does `needle` occur as a contiguous run inside `hay`? -/
def charsInclude (needle : List Char) : List Char → Bool
  | [] => charsStartWith needle []
  | h :: hs => charsStartWith needle (h :: hs) || charsInclude needle hs

/-- JS `String.prototype.includes`. -/
def jsIncludes (hay needle : String) : Bool :=
  charsInclude needle.toList hay.toList

/-! ## Data model (src/types.ts and module-level state of the service) -/

/-- `MochiState` from src/types.ts. -/
inductive MochiState
  | IDLE | LISTENING | THINKING | SPEAKING
  | LOADING | ERROR | SLEEPING | ENTERING_DEEP_SLEEP
deriving DecidableEq, Repr

/-- The `speaker` field of `ChatMessage` in src/types.ts. -/
inductive Speaker
  | user | mochi
deriving DecidableEq, Repr

/-- `ChatMessage` from src/types.ts. -/
structure ChatMessage where
  speaker : Speaker
  text : String
deriving DecidableEq, Repr

/-- One observable effect of the service: an invocation of a registered
callback, a scheduled continuation, or a call into a collaborator.
`sendToolResponse` payloads are out of scope for the claims, so
`toolResponse` carries no text. -/
inductive Output
  | stateChange (st : MochiState) (status : Option String)
  | transcriptionUpdate (m : Option ChatMessage)
  | historyUpdate (h : List ChatMessage)
  | scheduleSettleTimer
  | toolResponse
  | setAlarmRequest (delayMinutes : ℚ) (label : String)
deriving DecidableEq, Repr

/-- The module-level mutable state of the live-session service
(src/unnamed/part_001 lines 6-17) together with the two per-session
transcription accumulators of `startLiveSession`.  The five `…Open`
booleans stand for the nullable resource handles `session`,
`microphoneStream`, `scriptProcessor`, `inputAudioContext`,
`outputAudioContext`; `audioSources` records the scheduled start time of
each tracked `AudioBufferSourceNode`. -/
structure SessionState where
  sessionOpen : Bool
  micOpen : Bool
  procOpen : Bool
  inCtxOpen : Bool
  outCtxOpen : Bool
  isSpeaking : Bool
  isSuspended : Bool
  deepSleepRequested : Bool
  nextStartTime : ℚ
  audioSources : List ℚ
  currentInputTranscription : String
  currentOutputTranscription : String
  conversationHistory : List ChatMessage
deriving DecidableEq, Repr

/-- A tool call inside an inbound `toolCall` batch (the `fc.name`/`fc.args`
dispatch of the onmessage handler).  `unknown` covers an unrecognised name
or missing/mistyped required arguments. -/
inductive ToolCall
  | searchInternet (query : String)
  | setReminder (delayMinutes : ℚ) (label : String)
  | enterDeepSleep
  | unknown
deriving DecidableEq, Repr

/-- One inbound `LiveServerMessage`, restricted to the fields the onmessage
handler inspects.  `audioData` carries the duration of the decoded audio
buffer (the only attribute of the payload the scheduling logic uses). -/
structure ServerEvent where
  toolCalls : List ToolCall
  audioData : Option ℚ
  inputTranscription : Option String
  outputTranscription : Option String
  interrupted : Bool
  turnComplete : Bool
deriving DecidableEq, Repr

/-! ## Audio codec (decode/encode/createBlob/decodeAudioData) -/

/-- Truncation toward zero of a rational, as JS number-to-integer
conversion performs before the 16-bit wrap. -/
def truncQ (q : ℚ) : ℤ :=
  if 0 ≤ q then ⌊q⌋ else ⌈q⌉

/-- JS ToInt16: wrap an integer into the signed 16-bit range, as storing
into an `Int16Array` element does. -/
def toInt16 (n : ℤ) : ℤ :=
  (n + 32768) % 65536 - 32768

/-- The per-sample conversion of `createBlob`:
`int16[i] = data[i] * 32768` stored into an `Int16Array`. -/
def encodeSample (x : ℚ) : ℤ :=
  toInt16 (truncQ (x * 32768))

/-- The per-sample conversion of `decodeAudioData`:
`channelData[i] = dataInt16[…] / 32768.0`. -/
def decodeSample (n : ℤ) : ℚ :=
  (n : ℚ) / 32768

/-- Little-endian byte pair of a signed 16-bit value, as viewing the
`Int16Array` buffer through a `Uint8Array` produces.  (Encode and decode
reinterpret through the same platform endianness, so the round trip is
endianness-independent; little-endian is fixed here.) -/
def int16ToBytes (n : ℤ) : List ℕ :=
  let u := (n % 65536).toNat
  [u % 256, u / 256]

/-- Reinterpret an unsigned 16-bit value as signed, as `Int16Array`
element reads do. -/
def int16OfUInt (u : ℕ) : ℤ :=
  if u < 32768 then (u : ℤ) else (u : ℤ) - 65536

/-- `new Int16Array(bytes.buffer)`: consume the byte list two at a time
(little-endian).  Totality over a ragged tail is irrelevant because the
odd-length case is rejected before this runs (see `decodeAudioData`). -/
def bytePairsToInt16 : List ℕ → List ℤ
  | b0 :: b1 :: rest => int16OfUInt (b0 % 256 + 256 * (b1 % 256)) :: bytePairsToInt16 rest
  | _ => []

/-- `createBlob` (src/unnamed/part_001 lines 79-89) at the byte level: each
float sample is multiplied by 32768, stored into an `Int16Array`, and the
buffer is read back as bytes.  The base64 wrapper (`encode`/`btoa`) is
omitted: `atob ∘ btoa` is the identity on byte sequences and no claim
quantifies over it. -/
def createBlob : List ℚ → List ℕ
  | [] => []
  | x :: xs => int16ToBytes (encodeSample x) ++ createBlob xs

/-- `decodeAudioData` (src/unnamed/part_001 lines 51-68).
`new Int16Array(data.buffer)` throws a `RangeError` when the buffer length
is not a multiple of 2; `ctx.createBuffer(numChannels, frameCount,
sampleRate)` throws a `NotSupportedError` when an argument is zero or
outside its nominal range — a zero channel count, a zero frame count
(empty input, or fewer 16-bit values than channels, the fractional
quotient converting to 0), or a sample rate outside the spec-guaranteed
`[8000, 96000]` support range.  All surface as `Except.error`.
`frameCount` is `dataInt16.length / numChannels` truncated (a fractional
`frameCount` only produces out-of-bounds writes that the platform
discards, so the effective channel data covers exactly the floored frame
count).  The result is one sample list per channel. -/
def decodeAudioData (bytes : List ℕ) (sampleRate : ℕ) (numChannels : ℕ) :
    Except String (List (List ℚ)) :=
  if bytes.length % 2 ≠ 0 then
    Except.error "RangeError: byte length of Int16Array should be a multiple of 2"
  else if numChannels = 0 then
    Except.error "NotSupportedError: number of channels must be at least 1"
  else
    let dataInt16 := bytePairsToInt16 bytes
    let frameCount := dataInt16.length / numChannels
    if frameCount = 0 then
      Except.error "NotSupportedError: buffer length must be at least 1 frame"
    else if sampleRate < 8000 ∨ 96000 < sampleRate then
      Except.error "NotSupportedError: sample rate outside the supported range"
    else
      Except.ok ((List.range numChannels).map (fun channel =>
        (List.range frameCount).map (fun i =>
          decodeSample (dataInt16.getD (i * numChannels + channel) 0))))

/-! ## Alarm scheduler (alarmService, second segment of
src/components/UserInfoForm.tsx) -/

/-- An entry of `activeAlarms`.  The `timerId` handle of the source is not
observable through `getActiveAlarms` and carries no data relevant to the
claims, so it is not modelled; firing is modelled explicitly by
`fireAlarm`. -/
structure Alarm where
  id : ℕ
  time : ℤ
  label : String
deriving DecidableEq, Repr

/-- The module-level state of the alarm service
(`activeAlarms`, `nextAlarmId`). -/
structure AlarmState where
  activeAlarms : List Alarm
  nextAlarmId : ℕ
deriving DecidableEq, Repr

/-- `setAlarm(time, label)` at instant `now` (`Date.now()`).  Returns the
new state together with the registered one-shot timer `(delay, alarm id)`,
or `none` when nothing was registered.  The TS function returns `void` in
all cases; the `Option` records only whether a timer was created. -/
def setAlarm (now : ℤ) (s : AlarmState) (time : ℤ) (label : String) :
    AlarmState × Option (ℤ × ℕ) :=
  let delay := time - now
  if delay < 0 then
    (s, none)
  else
    let id := s.nextAlarmId
    ({ activeAlarms := s.activeAlarms ++ [{ id := id, time := time, label := label }],
       nextAlarmId := id + 1 },
     some (delay, id))

/-- `findIndex` followed by `splice(index, 1)`: remove the first list
element satisfying the predicate, keep the list unchanged when none
does. -/
def spliceFirst (p : Alarm → Bool) : List Alarm → List Alarm
  | [] => []
  | a :: rest => if p a then rest else a :: spliceFirst p rest

/-- The timer callback registered by `setAlarm` for alarm `id` with
captured `label`: invoke `onAlarmRing(label)` (and `speakAlarm`, an
external side effect), then remove the alarm from `activeAlarms`.  The
returned list is the sequence of labels passed to the ring callback. -/
def fireAlarm (s : AlarmState) (id : ℕ) (label : String) :
    AlarmState × List String :=
  ({ s with activeAlarms := spliceFirst (fun a => a.id == id) s.activeAlarms },
   [label])

/-- `getActiveAlarms`: read-only snapshot (the source strips `timerId`,
which this model does not store). -/
def getActiveAlarms (s : AlarmState) : List Alarm :=
  s.activeAlarms

/-! ## Weather lookup (getWeatherForLocation, src/unnamed/part_001
lines 161-227) -/

/-- `WeatherData` from the service module. -/
structure WeatherData where
  temperature : ℚ
  condition : String
  emoji : String
deriving DecidableEq, Repr

/-- `CacheEntry<T>` from the service module. -/
structure CacheEntry (α : Type) where
  data : α
  expiry : ℤ
deriving DecidableEq, Repr

/-- `WEATHER_CACHE_DURATION` (30 minutes, in milliseconds). -/
def WEATHER_CACHE_DURATION : ℤ := 1000 * 60 * 30

/-- Consume a maximal run of ASCII digits. -/
def takeDigits : List Char → List Char × List Char
  | [] => ([], [])
  | c :: rest =>
    if c.isDigit then
      let (ds, rs) := takeDigits rest
      (c :: ds, rs)
    else ([], c :: rest)

/-- Decimal value of a digit run. -/
def natOfDigits (ds : List Char) : ℕ :=
  ds.foldl (fun a c => a * 10 + (c.toNat - 48)) 0

/-- Modelled platform primitive: JavaScript `parseFloat`, restricted to an
optional leading whitespace run, an optional sign, an integer part and an
optional fractional part (exponents are not exercised by the source).
Trailing non-numeric input is ignored; `none` stands for `NaN`. -/
def parseFloatQ (s : String) : Option ℚ :=
  let cs := s.toList.dropWhile Char.isWhitespace
  let (sign, cs) : ℚ × List Char :=
    match cs with
    | '-' :: r => (-1, r)
    | '+' :: r => (1, r)
    | _ => (1, cs)
  let (ip, cs) := takeDigits cs
  let fp : List Char :=
    match cs with
    | '.' :: r => (takeDigits r).1
    | _ => []
  if ip = [] ∧ fp = [] then none
  else some (sign * ((natOfDigits ip : ℚ) + (natOfDigits fp : ℚ) / (10 : ℚ) ^ fp.length))

/-- The prompt sent to the remote text service for a weather lookup.  The
fixed Vietnamese instruction text is elided (prompt wording is out of the
spec's scope); what matters for the claims is that the prompt is a
function of the coordinates. -/
def weatherPrompt (latitude longitude : ℚ) : String :=
  "Tọa độ: Vĩ độ " ++ toString latitude ++ ", Kinh độ " ++ toString longitude

/-- The user-facing message the catch block substitutes for the two parse
failures. -/
def weatherParseFailureMsg : String :=
  "Rất tiếc, Mochi không thể đọc được dự báo thời tiết lúc này."

/-- The location-not-found failure, rethrown unchanged by the catch
block. -/
def weatherNotFoundMsg : String :=
  "Không thể tìm thấy dữ liệu thời tiết cho vị trí này."

/-- The fetch-and-parse path of `getWeatherForLocation`, taken on a cache
miss.  `remote` is the remote text service (`prompt ↦ response.text`).
Result: lookup outcome, new cache, and whether the remote service was
consulted. -/
def fetchWeather (cache : Option (CacheEntry WeatherData)) (now : ℤ)
    (latitude longitude : ℚ) (remote : String → String) :
    Except String WeatherData × Option (CacheEntry WeatherData) × Bool :=
  let responseText := jsTrim (remote (weatherPrompt latitude longitude))
  let parts := jsSplit responseText ';'
  if parts.length ≠ 3 then
    (Except.error weatherParseFailureMsg, cache, true)
  else if jsToUpper (parts.getD 0 "") = "NULL" then
    (Except.error weatherNotFoundMsg, cache, true)
  else
    match parseFloatQ (parts.getD 0 "") with
    | none => (Except.error weatherParseFailureMsg, cache, true)
    | some temperature =>
      let condition := jsTrim (parts.getD 1 "")
      let emoji := jsTrim (parts.getD 2 "")
      if condition = "" ∨ emoji = "" then
        (Except.error weatherParseFailureMsg, cache, true)
      else
        let result : WeatherData :=
          { temperature := temperature, condition := condition, emoji := emoji }
        (Except.ok result,
         some { data := result, expiry := now + WEATHER_CACHE_DURATION },
         true)

/-- `getWeatherForLocation(latitude, longitude)` with the module-level
`weatherCache` and `Date.now()` passed explicitly.  A valid cache entry is
returned without consulting the remote service (third component
`false`). -/
def getWeatherForLocation (cache : Option (CacheEntry WeatherData)) (now : ℤ)
    (latitude longitude : ℚ) (remote : String → String) :
    Except String WeatherData × Option (CacheEntry WeatherData) × Bool :=
  match cache with
  | some entry =>
    if now < entry.expiry then (Except.ok entry.data, some entry, false)
    else fetchWeather cache now latitude longitude remote
  | none => fetchWeather cache now latitude longitude remote

/-! ## Live session orchestrator (startLiveSession onmessage handler,
src/unnamed/part_001 lines 421-535, and wakeUp, lines 306-312) -/

/-- The wake phrase scanned for while suspended. -/
def wakePhrase : String := "mochi ơi"

/-- The status string attached to the `SLEEPING` transition.  The ASCII
quotes of the source string are rendered as typographic quotes here; no
claim depends on the exact wording. -/
def sleepStatusMsg : String :=
  "Mochi đang nghỉ ngơi. Nói ‘Mochi ơi’ hoặc nhấn đúp để đánh thức."

/-- The status string attached to the wake-up `LISTENING` transition. -/
def wakeStatusMsg : String := "Mochi nghe đây!"

/-- `wakeUp` (lines 306-312): if a session is open and suspended, clear
the suspend flag, clear the displayed transcription, go to `LISTENING`. -/
def wakeUp (s : SessionState) : SessionState × List Output :=
  if s.sessionOpen && s.isSuspended then
    ({ s with isSuspended := false },
     [Output.transcriptionUpdate none,
      Output.stateChange MochiState.LISTENING (some wakeStatusMsg)])
  else (s, [])

/-- One entry of the `message.toolCall.functionCalls` loop
(lines 422-442).  `searchInternet` runs `performGoogleSearch`, whose first
effect is the `THINKING` state change; `setReminder` calls
`alarmService.setAlarm`; `enterDeepSleep` sets the deep-sleep flag.
Every call is answered with exactly one `toolResponse`. -/
def applyToolCall (s : SessionState) (tc : ToolCall) : SessionState × List Output :=
  match tc with
  | ToolCall.searchInternet query =>
    (s, [Output.stateChange MochiState.THINKING
           (some ("Đang tìm kiếm \"" ++ query ++ "\"...")),
         Output.toolResponse])
  | ToolCall.setReminder delayMinutes label =>
    (s, [Output.setAlarmRequest delayMinutes label, Output.toolResponse])
  | ToolCall.enterDeepSleep =>
    ({ s with deepSleepRequested := true }, [Output.toolResponse])
  | ToolCall.unknown =>
    (s, [Output.toolResponse])

/-- The whole `message.toolCall` loop. -/
def applyToolCalls (s : SessionState) : List ToolCall → SessionState × List Output
  | [] => (s, [])
  | tc :: rest =>
    let r1 := applyToolCall s tc
    let r2 := applyToolCalls r1.1 rest
    (r2.1, r1.2 ++ r2.2)

/-- The inbound-audio branch (lines 444-462): gated on an open output
context and a clear suspend flag; on the first segment of a reply it
clears the displayed transcription and transitions to `SPEAKING`; every
segment is scheduled at `max(nextStartTime, currentTime)`, the cursor
advances by the segment duration, and the source joins the tracked set. -/
def applyAudio (currentTime : ℚ) (s : SessionState) (audio : Option ℚ) :
    SessionState × List Output :=
  match audio with
  | none => (s, [])
  | some duration =>
    if s.outCtxOpen && !s.isSuspended then
      let r1 : SessionState × List Output :=
        if !s.isSpeaking then
          ({ s with isSpeaking := true },
           [Output.transcriptionUpdate none,
            Output.stateChange MochiState.SPEAKING none])
        else (s, [])
      let start := max r1.1.nextStartTime currentTime
      ({ r1.1 with
           nextStartTime := start + duration,
           audioSources := r1.1.audioSources ++ [start] }, r1.2)
    else (s, [])

/-- The input-transcription branch (lines 464-474): append the delta;
while suspended, scan the lower-cased accumulator for the wake phrase and
on a match run `wakeUp` and clear the accumulator; otherwise publish the
running accumulator. -/
def applyInputTranscription (s : SessionState) (t : Option String) :
    SessionState × List Output :=
  match t with
  | none => (s, [])
  | some text =>
    let acc := s.currentInputTranscription ++ text
    if s.isSuspended then
      if jsIncludes (jsToLower acc) wakePhrase then
        let r := wakeUp { s with currentInputTranscription := acc }
        ({ r.1 with currentInputTranscription := "" }, r.2)
      else ({ s with currentInputTranscription := acc }, [])
    else
      ({ s with currentInputTranscription := acc },
       [Output.transcriptionUpdate (some { speaker := Speaker.user, text := acc })])

/-- The output-transcription branch (lines 475-480): only while the
suspend flag is clear, append the delta and publish the accumulator. -/
def applyOutputTranscription (s : SessionState) (t : Option String) :
    SessionState × List Output :=
  match t with
  | none => (s, [])
  | some text =>
    if !s.isSuspended then
      let acc := s.currentOutputTranscription ++ text
      ({ s with currentOutputTranscription := acc },
       [Output.transcriptionUpdate (some { speaker := Speaker.mochi, text := acc })])
    else (s, [])

/-- The `interrupted` branch (lines 486-497): stop and drop every tracked
source, reset the scheduling cursor and speaking flag, clear both
accumulators, clear the displayed transcription, and — only when the
session handle is still open — transition to `LISTENING`. -/
def applyInterrupted (s : SessionState) (b : Bool) : SessionState × List Output :=
  if b then
    ({ s with
         audioSources := [],
         nextStartTime := 0,
         isSpeaking := false,
         currentInputTranscription := "",
         currentOutputTranscription := "" },
     [Output.transcriptionUpdate none] ++
       (if s.sessionOpen then [Output.stateChange MochiState.LISTENING none] else []))
  else (s, [])

/-- The farewell test of the turn-complete branch. -/
def isGoodbyeInput (finalInput : String) : Bool :=
  jsIncludes finalInput "tạm biệt" || jsIncludes finalInput "goodbye"

/-- The `turnComplete` branch (lines 499-534): finalize the turn, extend
the history, reset the accumulators and speaking flag, then in priority
order enter deep sleep, fall asleep on a farewell, or schedule the settle
timer (emitting a brief `IDLE` when the assistant produced output). -/
def applyTurnComplete (s : SessionState) (b : Bool) : SessionState × List Output :=
  if b then
    let finalInput := jsToLower (jsTrim s.currentInputTranscription)
    let finalOutput := jsTrim s.currentOutputTranscription
    let hist1 := if finalInput ≠ "" then
        s.conversationHistory ++ [{ speaker := Speaker.user, text := finalInput }]
      else s.conversationHistory
    let hist2 := if finalOutput ≠ "" then
        hist1 ++ [{ speaker := Speaker.mochi, text := finalOutput }]
      else hist1
    let histOut := if finalInput ≠ "" ∨ finalOutput ≠ "" then
        [Output.historyUpdate hist2]
      else []
    let isGoodbye := isGoodbyeInput finalInput
    let s1 := { s with
        currentInputTranscription := "",
        currentOutputTranscription := "",
        isSpeaking := false,
        conversationHistory := hist2 }
    if s1.deepSleepRequested then
      ({ s1 with deepSleepRequested := false },
       histOut ++ [Output.stateChange MochiState.ENTERING_DEEP_SLEEP none])
    else if isGoodbye then
      ({ s1 with isSuspended := true },
       histOut ++ [Output.stateChange MochiState.SLEEPING (some sleepStatusMsg),
                   Output.transcriptionUpdate none])
    else
      (s1,
       histOut ++ (if finalOutput ≠ "" then [Output.stateChange MochiState.IDLE none] else [])
         ++ [Output.scheduleSettleTimer])
  else (s, [])

/-- The settle-timer continuation scheduled by the turn-complete branch
(lines 527-532): 2.5 s later, if the session is still open and not
suspended, clear the displayed transcription and return to
`LISTENING`. -/
def settleTimerFire (sessionOpen isSuspended : Bool) : List Output :=
  if sessionOpen && !isSuspended then
    [Output.transcriptionUpdate none,
     Output.stateChange MochiState.LISTENING none]
  else []

/-- The whole `onmessage` callback: the branches run in source order, and
when the suspend flag is set after the transcription branches the handler
returns early, skipping the `interrupted` and `turnComplete` branches
(the `if (isSuspended) return` at lines 482-484). -/
def handleMessage (currentTime : ℚ) (s : SessionState) (e : ServerEvent) :
    SessionState × List Output :=
  let r1 := applyToolCalls s e.toolCalls
  let r2 := applyAudio currentTime r1.1 e.audioData
  let r3 := applyInputTranscription r2.1 e.inputTranscription
  let r4 := applyOutputTranscription r3.1 e.outputTranscription
  if r4.1.isSuspended then
    (r4.1, r1.2 ++ r2.2 ++ r3.2 ++ r4.2)
  else
    let r5 := applyInterrupted r4.1 e.interrupted
    let r6 := applyTurnComplete r5.1 e.turnComplete
    (r6.1, r1.2 ++ r2.2 ++ r3.2 ++ r4.2 ++ r5.2 ++ r6.2)

/-- A run of inbound messages, threading the state and concatenating the
observable outputs. -/
def handleMessages (currentTime : ℚ) (s : SessionState) :
    List ServerEvent → SessionState × List Output
  | [] => (s, [])
  | e :: es =>
    let r := handleMessage currentTime s e
    let rs := handleMessages currentTime r.1 es
    (rs.1, r.2 ++ rs.2)

/-- Does handling `e` from `s` detect the wake phrase (and hence run
`wakeUp`)? -/
def wakeTriggered (s : SessionState) (e : ServerEvent) : Bool :=
  s.isSuspended &&
    match e.inputTranscription with
    | some t => jsIncludes (jsToLower (s.currentInputTranscription ++ t)) wakePhrase
    | none => false

/-- No event of the run detects the wake phrase. -/
def noWakeRun (currentTime : ℚ) (s : SessionState) : List ServerEvent → Bool
  | [] => true
  | e :: es =>
    !wakeTriggered s e && noWakeRun currentTime (handleMessage currentTime s e).1 es

/-- A run of inbound audio segments `(currentTime, duration)` through the
scheduling branch. -/
def audioRun (s : SessionState) : List (ℚ × ℚ) → SessionState
  | [] => s
  | (ct, d) :: rest => audioRun (applyAudio ct s (some d)).1 rest

/-- The pure scheduling recurrence of lines 458-460: each segment starts
at `max cursor currentTime` and the cursor advances by the duration; the
result lists the scheduled start times. -/
def scheduleRun (cursor : ℚ) : List (ℚ × ℚ) → List ℚ
  | [] => []
  | (ct, d) :: rest =>
    let start := max cursor ct
    start :: scheduleRun (start + d) rest

/-! ## Session teardown (stopLiveSession, src/unnamed/part_001
lines 558-597) -/

/-- The resources `stopLiveSession` releases, in source order. -/
inductive ReleasedResource
  | transport | microphone | scriptProcessor | inputContext | outputContext
deriving DecidableEq, Repr

/-- Which underlying release call throws.  The source wraps none of the
steps in try/catch, so a throw propagates out of `stopLiveSession`. -/
structure ThrowSpec where
  closeThrows : Bool
  micThrows : Bool
  procThrows : Bool
  inCtxThrows : Bool
  outCtxThrows : Bool
deriving DecidableEq, Repr

/-- No release call throws. -/
def noThrowSpec : ThrowSpec :=
  { closeThrows := false, micThrows := false, procThrows := false,
    inCtxThrows := false, outCtxThrows := false }

/-- Result of a `stopLiveSession` call: final module state, the release
calls that were invoked (in order), whether the function threw, and the
callbacks it invoked (empty when it threw before reaching them). -/
structure StopResult where
  state : SessionState
  released : List ReleasedResource
  threw : Bool
  outputs : List Output
deriving DecidableEq, Repr

/-- The closing callbacks at the end of `stopLiveSession`
(lines 594-596). -/
def stopTailOutputs (userName : Option String) : List Output :=
  [Output.transcriptionUpdate none,
   Output.historyUpdate [],
   Output.stateChange MochiState.IDLE
     (some (match userName with
            | some n => "Hẹn gặp lại, " ++ n ++ "!"
            | none => "Phiên đã kết thúc."))]

/-- One guarded teardown step: runs only when no earlier step threw; the
release call is invoked only when the resource handle is non-null; a
throwing call leaves the handle set (the `= null` assignment after it
never runs) and aborts the remaining steps. -/
def stopStep (present : SessionState → Bool) (clear : SessionState → SessionState)
    (thr : Bool) (r : ReleasedResource)
    (acc : SessionState × List ReleasedResource × Bool) :
    SessionState × List ReleasedResource × Bool :=
  match acc with
  | (s, rs, true) => (s, rs, true)
  | (s, rs, false) =>
    if present s then
      if thr then (s, rs ++ [r], true)
      else (clear s, rs ++ [r], false)
    else (s, rs, false)

/-- `stopLiveSession(userName?)`: the five guarded releases in source
order, then (when nothing threw) stop every tracked audio source, reset
all per-session flags and the cursor, and fire the closing callbacks.
(The tracked sources were all started, so their `stop()` calls cannot
throw and are not in `ThrowSpec`.) -/
def stopLiveSession (s : SessionState) (th : ThrowSpec) (userName : Option String) :
    StopResult :=
  let a0 : SessionState × List ReleasedResource × Bool := (s, [], false)
  let a1 := stopStep (fun s => s.sessionOpen) (fun s => { s with sessionOpen := false })
      th.closeThrows ReleasedResource.transport a0
  let a2 := stopStep (fun s => s.micOpen) (fun s => { s with micOpen := false })
      th.micThrows ReleasedResource.microphone a1
  let a3 := stopStep (fun s => s.procOpen) (fun s => { s with procOpen := false })
      th.procThrows ReleasedResource.scriptProcessor a2
  let a4 := stopStep (fun s => s.inCtxOpen) (fun s => { s with inCtxOpen := false })
      th.inCtxThrows ReleasedResource.inputContext a3
  let a5 := stopStep (fun s => s.outCtxOpen) (fun s => { s with outCtxOpen := false })
      th.outCtxThrows ReleasedResource.outputContext a4
  match a5 with
  | (s5, rs, true) => { state := s5, released := rs, threw := true, outputs := [] }
  | (s5, rs, false) =>
    { state := { s5 with
         audioSources := [],
         isSpeaking := false,
         isSuspended := false,
         deepSleepRequested := false,
         nextStartTime := 0 },
      released := rs, threw := false, outputs := stopTailOutputs userName }

/-! ## Concrete events and states used by witnesses and
counterexamples -/

/-- An inbound message carrying only `turnComplete`. -/
def turnCompleteEvent : ServerEvent :=
  { toolCalls := [], audioData := none, inputTranscription := none,
    outputTranscription := none, interrupted := false, turnComplete := true }

/-- An inbound message carrying only `interrupted`. -/
def interruptedEvent : ServerEvent :=
  { toolCalls := [], audioData := none, inputTranscription := none,
    outputTranscription := none, interrupted := true, turnComplete := false }

/-- An inbound message carrying only an input-transcription delta. -/
def inputDeltaEvent (t : String) : ServerEvent :=
  { toolCalls := [], audioData := none, inputTranscription := some t,
    outputTranscription := none, interrupted := false, turnComplete := false }

/-- A freshly opened live session: every resource handle set, every flag
and accumulator at its reset value (the state right after a successful
`startLiveSession`). -/
def baseState : SessionState :=
  { sessionOpen := true, micOpen := true, procOpen := true, inCtxOpen := true,
    outCtxOpen := true, isSpeaking := false, isSuspended := false,
    deepSleepRequested := false, nextStartTime := 0, audioSources := [],
    currentInputTranscription := "", currentOutputTranscription := "",
    conversationHistory := [] }

/-- All five resource handles are null (an already-stopped session). -/
def sessionStopped (s : SessionState) : Bool :=
  !s.sessionOpen && !s.micOpen && !s.procOpen && !s.inCtxOpen && !s.outCtxOpen

/-- All five resource handles are live (a fully started mid-session
state). -/
def allResourcesOpen (s : SessionState) : Bool :=
  s.sessionOpen && s.micOpen && s.procOpen && s.inCtxOpen && s.outCtxOpen

/-- The per-session flag/cursor/queue reset performed at the end of
`stopLiveSession`. -/
def resetSessionFlags (s : SessionState) : SessionState :=
  { s with audioSources := [], isSpeaking := false, isSuspended := false,
           deepSleepRequested := false, nextStartTime := 0 }

/-- A suspended (wake-word-only) session state. -/
def suspendedSample : SessionState :=
  { baseState with isSuspended := true }

/-- An already-stopped session: every resource handle null. -/
def stoppedSample : SessionState :=
  { baseState with sessionOpen := false, micOpen := false, procOpen := false,
                   inCtxOpen := false, outCtxOpen := false }

/-- A mid-reply session state: segments queued, Mochi speaking, both
accumulators holding text. -/
def speakingSample : SessionState :=
  { baseState with audioSources := [1, 2, 3], isSpeaking := true,
                   currentInputTranscription := "a",
                   currentOutputTranscription := "b" }

/-- The sequence of states passed to `onStateChange` within an output
trace. -/
def emittedStates : List Output → List MochiState
  | [] => []
  | Output.stateChange st _ :: rest => st :: emittedStates rest
  | _ :: rest => emittedStates rest

/-! ## Theorems -/

/-- C9: when the weather service answers `28;Nắng;☀️`, the lookup parses
it to `{temperature := 28, condition := "Nắng", emoji := "☀️"}` and writes
the cache with a 30-minute expiry; when it answers the sentinel
`NULL;Không thể xác định;❓`, the lookup raises the location-not-found
failure and leaves the cache untouched. -/
theorem c9_weather_parse_scenarios :
    getWeatherForLocation none 0 21 105 (fun _ => "28;Nắng;☀️") =
      (Except.ok { temperature := 28, condition := "Nắng", emoji := "☀️" },
       some { data := { temperature := 28, condition := "Nắng", emoji := "☀️" },
              expiry := WEATHER_CACHE_DURATION },
       true) ∧
    getWeatherForLocation none 0 21 105 (fun _ => "NULL;Không thể xác định;❓") =
      (Except.error weatherNotFoundMsg, none, true) := by
  exact ⟨by with_unfolding_all rfl, by with_unfolding_all rfl⟩

/-- C5 counterexample: a one-byte input makes the decode path raise (the
`Int16Array` view of an odd-length buffer throws a `RangeError` in the
source), so the decode path is not free of error conditions. -/
theorem c5_counterexample :
    decodeAudioData [0] 24000 1 =
      Except.error "RangeError: byte length of Int16Array should be a multiple of 2" := by
  rfl

/-- The number of 16-bit values read from a byte list. -/
lemma bytePairsToInt16_length : (bytes : List ℕ) →
    (bytePairsToInt16 bytes).length = bytes.length / 2
  | [] => by simp [bytePairsToInt16]
  | [_] => by simp [bytePairsToInt16]
  | _ :: _ :: rest => by
    simp [bytePairsToInt16, bytePairsToInt16_length rest]
    omega

/-- C5 (amended): the decode path does have error conditions, but only
these: an odd byte length raises a `RangeError`, and a zero frame count
(empty input, or fewer 16-bit values than channels) or an unsupported
sample rate raises a `NotSupportedError`; for every other byte sequence,
however malformed, decoding yields truncated/garbage output without
raising. -/
theorem c5_decode_total_on_even_lengths (bytes : List ℕ) (sr nc : ℕ)
    (heven : bytes.length % 2 = 0) (hnc : nc ≠ 0)
    (hframes : bytes.length / 2 / nc ≠ 0)
    (hsrlo : 8000 ≤ sr) (hsrhi : sr ≤ 96000) :
    ∃ out, decodeAudioData bytes sr nc = Except.ok out := by
  unfold decodeAudioData
  rw [if_neg (by omega), if_neg hnc]
  simp only [bytePairsToInt16_length]
  rw [if_neg hframes, if_neg (by omega)]
  exact ⟨_, rfl⟩

/-- C5 witness: the amended theorem at the concrete two-byte input
`[0, 128]` with one channel at 24 kHz. -/
theorem c5_witness :
    ∃ out, decodeAudioData [0, 128] 24000 1 = Except.ok out :=
  c5_decode_total_on_even_lengths [0, 128] 24000 1 (by decide) (by decide)
    (by decide) (by decide) (by decide)

/-- Removing the just-appended element by its id leaves the original list
when no earlier element carries that id. -/
lemma spliceFirst_append_fresh (l : List Alarm) (a0 : Alarm)
    (h : ∀ a ∈ l, a.id ≠ a0.id) :
    spliceFirst (fun a => a.id == a0.id) (l ++ [a0]) = l := by
  induction l with
  | nil => simp [spliceFirst]
  | cons a t ih =>
    have ha : (a.id == a0.id) = false := by
      simpa using h a (by simp)
    simp only [List.cons_append, spliceFirst, ha, Bool.false_eq_true, if_false]
    exact congrArg (a :: ·) (ih (fun x hx => h x (by simp [hx])))

/-- C8: `setAlarm` with a `fireAt` strictly in the past registers nothing
(state unchanged, `listActive` length unchanged, no timer, no id, and the
function is total so it never throws); with a future `fireAt` it registers
a one-shot timer carrying the fresh id and the delay, and firing that
timer rings the callback with the label and removes the alarm from the
live set. -/
theorem c8_setAlarm_contract (now time : ℤ) (label : String) (s : AlarmState)
    (hfresh : ∀ a ∈ s.activeAlarms, a.id < s.nextAlarmId) :
    (time < now →
      setAlarm now s time label = (s, none) ∧
      (getActiveAlarms (setAlarm now s time label).1).length =
        (getActiveAlarms s).length) ∧
    (now < time →
      (setAlarm now s time label).2 = some (time - now, s.nextAlarmId) ∧
      fireAlarm (setAlarm now s time label).1 s.nextAlarmId label =
        ({ activeAlarms := s.activeAlarms, nextAlarmId := s.nextAlarmId + 1 },
         [label])) := by
  constructor
  · intro h
    have hneg : time - now < 0 := by omega
    simp [setAlarm, hneg]
  · intro h
    have hnn : ¬ time - now < 0 := by omega
    refine ⟨by simp [setAlarm, hnn], ?_⟩
    simp only [setAlarm, hnn, if_false, fireAlarm]
    have := spliceFirst_append_fresh s.activeAlarms
      { id := s.nextAlarmId, time := time, label := label }
      (fun a ha => Nat.ne_of_lt (hfresh a ha))
    simp_all

/-- C8 witness: the contract at a past instant (`fireAt = -5` before
`now = 0`) and a future one (ten minutes later), on an empty alarm
state. -/
theorem c8_witness :
    setAlarm 0 { activeAlarms := [], nextAlarmId := 1 } (-5) "x" =
        ({ activeAlarms := [], nextAlarmId := 1 }, none) ∧
    (setAlarm 0 { activeAlarms := [], nextAlarmId := 1 } 600000 "Gọi mẹ").2 =
        some (600000, 1) ∧
    fireAlarm (setAlarm 0 { activeAlarms := [], nextAlarmId := 1 } 600000 "Gọi mẹ").1
        1 "Gọi mẹ" =
      ({ activeAlarms := [], nextAlarmId := 2 }, ["Gọi mẹ"]) := by
  have hf : ∀ a ∈ ({ activeAlarms := [], nextAlarmId := 1 } : AlarmState).activeAlarms,
      a.id < ({ activeAlarms := [], nextAlarmId := 1 } : AlarmState).nextAlarmId := by
    simp
  exact ⟨((c8_setAlarm_contract 0 (-5) "x" _ hf).1 (by decide)).1,
    ((c8_setAlarm_contract 0 600000 "Gọi mẹ" _ hf).2 (by decide)).1,
    ((c8_setAlarm_contract 0 600000 "Gọi mẹ" _ hf).2 (by decide)).2⟩

lemma toInt16_bounds (n : ℤ) : -32768 ≤ toInt16 n ∧ toInt16 n < 32768 := by
  unfold toInt16
  omega

lemma toInt16_eq_self (n : ℤ) (h1 : -32768 ≤ n) (h2 : n < 32768) :
    toInt16 n = n := by
  unfold toInt16
  omega

lemma encodeSample_bounds (x : ℚ) :
    -32768 ≤ encodeSample x ∧ encodeSample x < 32768 :=
  toInt16_bounds _

/-- Reading back the two bytes of an in-range 16-bit value recovers it. -/
lemma bytePairs_int16ToBytes (n : ℤ) (h1 : -32768 ≤ n) (h2 : n < 32768)
    (rest : List ℕ) :
    bytePairsToInt16 (int16ToBytes n ++ rest) = n :: bytePairsToInt16 rest := by
  simp only [int16ToBytes, List.cons_append, List.nil_append, bytePairsToInt16,
    int16OfUInt, List.cons.injEq]
  refine ⟨?_, rfl⟩
  split_ifs <;> omega

lemma createBlob_length (xs : List ℚ) :
    (createBlob xs).length = 2 * xs.length := by
  induction xs with
  | nil => rfl
  | cons x t ih =>
    simp only [createBlob, int16ToBytes, List.length_append, List.length_cons,
      List.length_nil, List.length_append, ih]
    omega

/-- Reinterpreting an encoded frame as 16-bit values recovers the encoded
samples. -/
lemma bytePairsToInt16_createBlob (xs : List ℚ) :
    bytePairsToInt16 (createBlob xs) = xs.map encodeSample := by
  induction xs with
  | nil => rfl
  | cons x t ih =>
    simp only [createBlob, List.map_cons]
    rw [bytePairs_int16ToBytes _ (encodeSample_bounds x).1 (encodeSample_bounds x).2, ih]

lemma range_getD_decode (l : List ℤ) :
    (List.range l.length).map (fun i => decodeSample (l.getD i 0)) =
      l.map decodeSample := by
  induction l with
  | nil => rfl
  | cons a t ih =>
    rw [List.length_cons, List.range_succ_eq_map, List.map_cons, List.map_map,
      List.map_cons]
    have hcomp : ((fun i => decodeSample ((a :: t).getD i 0)) ∘ Nat.succ)
        = fun i => decodeSample (t.getD i 0) := by
      funext i
      rfl
    rw [hcomp, ih]
    rfl

/-- Mono decode of a nonempty encoded frame yields exactly the
per-sample round trips (the empty frame is rejected by
`ctx.createBuffer`). -/
lemma decode_createBlob (xs : List ℚ) (hne : xs ≠ []) :
    decodeAudioData (createBlob xs) 24000 1 =
      Except.ok [xs.map (fun x => decodeSample (encodeSample x))] := by
  unfold decodeAudioData
  rw [if_neg (by rw [createBlob_length]; omega), if_neg (by omega)]
  simp only [bytePairsToInt16_createBlob, List.length_map, Nat.div_one, Nat.mul_one]
  rw [if_neg (by simpa [List.length_eq_zero] using hne), if_neg (by omega)]
  rw [show List.range 1 = [0] from rfl, List.map_cons, List.map_nil]
  simp only [Nat.add_zero]
  rw [show xs.length = (List.map encodeSample xs).length from
    (List.length_map xs encodeSample).symm]
  rw [range_getD_decode (xs.map encodeSample), List.map_map]
  rfl

lemma truncQ_close (q : ℚ) : |q - (truncQ q : ℚ)| < 1 := by
  unfold truncQ
  split_ifs with h
  · rw [abs_sub_lt_iff]
    exact ⟨by linarith [Int.lt_floor_add_one q], by linarith [Int.floor_le q]⟩
  · rw [abs_sub_lt_iff]
    exact ⟨by linarith [Int.le_ceil q], by linarith [Int.ceil_lt_add_one q]⟩

lemma truncQ_bounds (q : ℚ) (h1 : -32768 ≤ q) (h2 : q < 32768) :
    -32768 ≤ truncQ q ∧ truncQ q < 32768 := by
  unfold truncQ
  split_ifs with h
  · refine ⟨?_, ?_⟩
    · have : (0 : ℤ) ≤ ⌊q⌋ := Int.floor_nonneg.mpr h
      omega
    · exact Int.floor_lt.mpr (by exact_mod_cast h2)
  · refine ⟨?_, ?_⟩
    · have hc := Int.le_ceil q
      have : ((-32768 : ℤ) : ℚ) ≤ (⌈q⌉ : ℚ) := le_trans (by exact_mod_cast h1) hc
      exact_mod_cast this
    · have : ⌈q⌉ ≤ 0 := Int.ceil_le.mpr (by exact_mod_cast (not_le.mp h).le)
      omega

/-- The per-sample round-trip error bound, valid away from the wrap point
`x = 1`. -/
lemma decode_encode_close (x : ℚ) (h1 : -1 ≤ x) (h2 : x < 1) :
    |x - decodeSample (encodeSample x)| ≤ 1 / 32768 := by
  have hq1 : -32768 ≤ x * 32768 := by linarith
  have hq2 : x * 32768 < 32768 := by linarith
  have hb := truncQ_bounds (x * 32768) hq1 hq2
  have hc := abs_sub_lt_iff.mp (truncQ_close (x * 32768))
  unfold encodeSample decodeSample
  rw [toInt16_eq_self _ hb.1 hb.2, abs_le]
  exact ⟨by linarith [hc.2], by linarith [hc.1]⟩

/-- C4 (amended): for every nonempty frame of samples in `[-1, 1)` —
excluding the wrap point `1` itself — encoding to 16-bit PCM and
decoding back (sample rate and channel count held constant) recovers
exactly the per-sample truncations, each within `1/32768` of the
original.  (The empty frame makes `ctx.createBuffer` throw, and the
per-sample bound holds for arbitrary in-range samples regardless.) -/
theorem c4_codec_roundtrip (xs : List ℚ) (hne : xs ≠ [])
    (h : ∀ x ∈ xs, -1 ≤ x ∧ x < 1) :
    decodeAudioData (createBlob xs) 24000 1 =
      Except.ok [xs.map (fun x => decodeSample (encodeSample x))] ∧
    ∀ x ∈ xs, |x - decodeSample (encodeSample x)| ≤ 1 / 32768 :=
  ⟨decode_createBlob xs hne,
   fun x hx => decode_encode_close x (h x hx).1 (h x hx).2⟩

/-- C4 witness: the amended theorem at the concrete frame `[0, -1]`. -/
theorem c4_witness :
    decodeAudioData (createBlob [0, -1]) 24000 1 =
      Except.ok [[(0 : ℚ), -1].map (fun x => decodeSample (encodeSample x))] ∧
    ∀ x ∈ [(0 : ℚ), -1], |x - decodeSample (encodeSample x)| ≤ 1 / 32768 :=
  c4_codec_roundtrip [0, -1] (List.cons_ne_nil _ _) (by decide)

/-- C4 counterexample: the sample `1.0` (inside the claimed domain
`[-1, 1]`) wraps: `1 * 32768 = 32768` stored into an `Int16Array` becomes
`-32768`, which decodes to `-1.0` — an error of `2`, not `≤ 1/32768`. -/
theorem c4_counterexample :
    decodeAudioData (createBlob [(1 : ℚ)]) 24000 1 = Except.ok [[(-1 : ℚ)]] ∧
    ¬ |(1 : ℚ) - (-1 : ℚ)| ≤ 1 / 32768 := by
  constructor
  · with_unfolding_all rfl
  · rw [show (1 : ℚ) - (-1) = 2 by norm_num, abs_of_pos (by norm_num : (0 : ℚ) < 2)]
    norm_num

lemma scheduleRun_lb (segs : List (ℚ × ℚ)) :
    ∀ (c : ℚ), (∀ p ∈ segs, 0 ≤ p.2) → ∀ j < segs.length,
      c ≤ (scheduleRun c segs).getD j 0 := by
  induction segs with
  | nil =>
    intro c _ j hj
    simp at hj
  | cons p t ih =>
    obtain ⟨ct, d⟩ := p
    intro c hd j hj
    cases j with
    | zero =>
      simp only [scheduleRun, List.getD_cons_zero]
      exact le_max_left _ _
    | succ j =>
      have h0 : (0 : ℚ) ≤ d := hd (ct, d) (by simp)
      have hrec := ih (max c ct + d) (fun q hq => hd q (by simp [hq])) j
        (by simpa using hj)
      have hstep : c ≤ max c ct + d :=
        le_trans (le_max_left c ct) (le_add_of_nonneg_right h0)
      simp only [scheduleRun, List.getD_cons_succ]
      exact le_trans hstep hrec

/-- Pairwise non-overlap of the pure scheduling recurrence. -/
lemma scheduleRun_pairwise (segs : List (ℚ × ℚ)) :
    ∀ (c : ℚ), (∀ p ∈ segs, 0 ≤ p.2) → ∀ i j, i < j → j < segs.length →
      (scheduleRun c segs).getD i 0 + (segs.getD i (0, 0)).2 ≤
        (scheduleRun c segs).getD j 0 := by
  induction segs with
  | nil =>
    intro c _ i j _ hj
    simp at hj
  | cons p t ih =>
    obtain ⟨ct, d⟩ := p
    intro c hd i j hij hj
    cases i with
    | zero =>
      cases j with
      | zero => omega
      | succ j =>
        simp only [scheduleRun, List.getD_cons_zero, List.getD_cons_succ]
        exact scheduleRun_lb t (max c ct + d) (fun q hq => hd q (by simp [hq])) j
          (by simpa using hj)
    | succ i =>
      cases j with
      | zero => omega
      | succ j =>
        simp only [scheduleRun, List.getD_cons_succ]
        exact ih (max c ct + d) (fun q hq => hd q (by simp [hq])) i j (by omega)
          (by simpa using hj)

/-- One audio delta through an open, unsuspended state: the source is
scheduled at `max cursor currentTime`, the cursor advances by the
duration, and the speaking flag ends set. -/
lemma applyAudio_step (ct d : ℚ) (s : SessionState)
    (h1 : s.outCtxOpen = true) (h2 : s.isSuspended = false) :
    (applyAudio ct s (some d)).1 =
      { s with
          isSpeaking := true,
          nextStartTime := max s.nextStartTime ct + d,
          audioSources := s.audioSources ++ [max s.nextStartTime ct] } := by
  obtain ⟨so, mo, po, io, oo, sp, su, ds, nst, srcs, cit, cot, ch⟩ := s
  subst h1 h2
  by_cases hsp : sp <;> simp_all [applyAudio]

/-- `audioRun` plays out the `scheduleRun` recurrence on `audioSources`. -/
lemma audioRun_spec (segs : List (ℚ × ℚ)) :
    ∀ (s : SessionState), s.outCtxOpen = true → s.isSuspended = false →
      (audioRun s segs).audioSources =
        s.audioSources ++ scheduleRun s.nextStartTime segs := by
  induction segs with
  | nil =>
    intro s _ _
    simp [audioRun, scheduleRun]
  | cons p t ih =>
    obtain ⟨ct, d⟩ := p
    intro s h1 h2
    have hstep := applyAudio_step ct d s h1 h2
    simp only [audioRun, hstep]
    rw [ih _ (by simpa using h1) (by simpa using h2)]
    simp [scheduleRun, List.append_assoc]

/-- C6: playback scheduling is strictly non-overlapping.  Each new
segment starts at `max(cursor, currentOutputTime)` and the cursor
advances by the segment's duration; consequently, over any run of audio
deltas (durations being nonnegative), a segment enqueued later is
scheduled no earlier than every earlier segment's start plus that
segment's duration. -/
theorem c6_gapless_scheduling :
    (∀ (ct d : ℚ) (s : SessionState), s.outCtxOpen = true → s.isSuspended = false →
      (applyAudio ct s (some d)).1.audioSources =
          s.audioSources ++ [max s.nextStartTime ct] ∧
      (applyAudio ct s (some d)).1.nextStartTime = max s.nextStartTime ct + d) ∧
    (∀ (s : SessionState) (segs : List (ℚ × ℚ)),
      s.outCtxOpen = true → s.isSuspended = false → s.audioSources = [] →
      (∀ p ∈ segs, 0 ≤ p.2) →
      ∀ i j, i < j → j < segs.length →
        (audioRun s segs).audioSources.getD i 0 + (segs.getD i (0, 0)).2 ≤
          (audioRun s segs).audioSources.getD j 0) := by
  constructor
  · intro ct d s h1 h2
    rw [applyAudio_step ct d s h1 h2]
    exact ⟨rfl, rfl⟩
  · intro s segs h1 h2 h3 hd i j hij hj
    rw [audioRun_spec segs s h1 h2, h3, List.nil_append]
    exact scheduleRun_pairwise segs s.nextStartTime hd i j hij hj

/-- C6 witness: the scheduling contract at one concrete audio delta and a
concrete two-segment run from a fresh session state. -/
theorem c6_witness :
    ((applyAudio 0 baseState (some 1)).1.audioSources =
        baseState.audioSources ++ [max baseState.nextStartTime 0] ∧
     (applyAudio 0 baseState (some 1)).1.nextStartTime =
        max baseState.nextStartTime 0 + 1) ∧
    (audioRun baseState [(0, 1), (0, 2)]).audioSources.getD 0 0 +
        (([(0, 1), (0, 2)] : List (ℚ × ℚ)).getD 0 (0, 0)).2 ≤
      (audioRun baseState [(0, 1), (0, 2)]).audioSources.getD 1 0 :=
  ⟨c6_gapless_scheduling.1 0 1 baseState rfl rfl,
   c6_gapless_scheduling.2 baseState [(0, 1), (0, 2)] rfl rfl rfl
     (by decide) 0 1 (by decide) (by decide)⟩

lemma emittedStates_append (a b : List Output) :
    emittedStates (a ++ b) = emittedStates a ++ emittedStates b := by
  induction a with
  | nil => rfl
  | cons o t ih => cases o <;> simp [emittedStates, ih]

/-- On an unsuspended state, a pure turn-complete message reduces to the
turn-complete branch. -/
lemma handleMessage_turnComplete (ct : ℚ) (s : SessionState)
    (h : s.isSuspended = false) :
    handleMessage ct s turnCompleteEvent = applyTurnComplete s true := by
  simp [handleMessage, turnCompleteEvent, applyToolCalls, applyAudio,
    applyInputTranscription, applyOutputTranscription, applyInterrupted, h]

/-- On an unsuspended state, a pure interrupted message reduces to the
interrupted branch. -/
lemma handleMessage_interrupted (ct : ℚ) (s : SessionState)
    (h : s.isSuspended = false) :
    handleMessage ct s interruptedEvent = applyInterrupted s true := by
  simp [handleMessage, interruptedEvent, applyToolCalls, applyAudio,
    applyInputTranscription, applyOutputTranscription, applyInterrupted,
    applyTurnComplete, h]

/-- C1 (amended): on a turn-complete event received while the suspend
flag is clear, exactly one of three outcomes occurs, in priority order:
a pending deep-sleep request is consumed and the only emitted state is
`ENTERING_DEEP_SLEEP`; else a farewell in the finalized input sets the
suspend flag, emits only `SLEEPING` with the wake-instruction status and
clears the displayed transcription; else a brief `IDLE` is emitted
exactly when the assistant produced output, the settle timer is
scheduled, and its firing (session still open, not suspended) clears the
displayed transcription and returns to `LISTENING`. -/
theorem c1_turn_complete_priority (ct : ℚ) (s : SessionState)
    (hns : s.isSuspended = false) :
    (s.deepSleepRequested = true →
      (handleMessage ct s turnCompleteEvent).1.deepSleepRequested = false ∧
      (handleMessage ct s turnCompleteEvent).1.isSuspended = false ∧
      emittedStates (handleMessage ct s turnCompleteEvent).2 =
        [MochiState.ENTERING_DEEP_SLEEP] ∧
      Output.scheduleSettleTimer ∉ (handleMessage ct s turnCompleteEvent).2) ∧
    (s.deepSleepRequested = false →
      isGoodbyeInput (jsToLower (jsTrim s.currentInputTranscription)) = true →
      (handleMessage ct s turnCompleteEvent).1.isSuspended = true ∧
      Output.stateChange MochiState.SLEEPING (some sleepStatusMsg) ∈
        (handleMessage ct s turnCompleteEvent).2 ∧
      Output.transcriptionUpdate none ∈ (handleMessage ct s turnCompleteEvent).2 ∧
      emittedStates (handleMessage ct s turnCompleteEvent).2 =
        [MochiState.SLEEPING] ∧
      Output.scheduleSettleTimer ∉ (handleMessage ct s turnCompleteEvent).2) ∧
    (s.deepSleepRequested = false →
      isGoodbyeInput (jsToLower (jsTrim s.currentInputTranscription)) = false →
      (handleMessage ct s turnCompleteEvent).1.isSuspended = false ∧
      (handleMessage ct s turnCompleteEvent).1.deepSleepRequested = false ∧
      emittedStates (handleMessage ct s turnCompleteEvent).2 =
        (if jsTrim s.currentOutputTranscription ≠ "" then [MochiState.IDLE]
         else []) ∧
      Output.scheduleSettleTimer ∈ (handleMessage ct s turnCompleteEvent).2 ∧
      settleTimerFire true false =
        [Output.transcriptionUpdate none,
         Output.stateChange MochiState.LISTENING none]) := by
  rw [handleMessage_turnComplete ct s hns]
  unfold applyTurnComplete
  simp only [if_true]
  refine ⟨?_, ?_, ?_⟩
  · intro hds
    by_cases hI : jsToLower (jsTrim s.currentInputTranscription) = "" <;>
      by_cases hO : jsTrim s.currentOutputTranscription = "" <;>
      simp [hds, hns, hI, hO, emittedStates_append, emittedStates]
  · intro hds hg
    by_cases hI : jsToLower (jsTrim s.currentInputTranscription) = ""
    · exact absurd (hI ▸ hg) (by decide)
    · by_cases hO : jsTrim s.currentOutputTranscription = "" <;>
        simp [hds, hns, hg, hI, hO, emittedStates_append, emittedStates]
  · intro hds hg
    by_cases hI : jsToLower (jsTrim s.currentInputTranscription) = ""
    · by_cases hO : jsTrim s.currentOutputTranscription = "" <;>
        simp [hds, hns, hI, hO, emittedStates_append, emittedStates,
          settleTimerFire, show isGoodbyeInput "" = false from by decide]
    · by_cases hO : jsTrim s.currentOutputTranscription = "" <;>
        simp [hds, hns, hg, hI, hO, emittedStates_append, emittedStates,
          settleTimerFire]

/-- C1 counterexample (to the claim as stated, over every turn-complete
event): while the suspend flag is set, a turn-complete event with a
pending deep-sleep request produces none of the three outcomes — the
handler returns early, emits nothing, and does not consume the flag. -/
theorem c1_counterexample :
    handleMessage 0 { baseState with isSuspended := true, deepSleepRequested := true }
        turnCompleteEvent =
      ({ baseState with isSuspended := true, deepSleepRequested := true }, []) ∧
    ({ baseState with isSuspended := true, deepSleepRequested := true }
        : SessionState).deepSleepRequested = true := by
  exact ⟨rfl, rfl⟩

/-- C1 witness: the farewell branch at the finalized input
`tạm biệt nhé`. -/
theorem c1_witness :
    (handleMessage 0 { baseState with currentInputTranscription := "tạm biệt nhé" }
        turnCompleteEvent).1.isSuspended = true ∧
    Output.stateChange MochiState.SLEEPING (some sleepStatusMsg) ∈
      (handleMessage 0 { baseState with currentInputTranscription := "tạm biệt nhé" }
        turnCompleteEvent).2 ∧
    Output.transcriptionUpdate none ∈
      (handleMessage 0 { baseState with currentInputTranscription := "tạm biệt nhé" }
        turnCompleteEvent).2 :=
  have h := (c1_turn_complete_priority 0
      { baseState with currentInputTranscription := "tạm biệt nhé" } rfl).2.1
      rfl (by decide)
  ⟨h.1, h.2.1, h.2.2.1⟩

/-- C2 (amended): on an interrupted event received while the suspend
flag is clear, whatever was queued, the tracked segment set empties, the
scheduling cursor and speaking flag reset, both transcription
accumulators empty, the displayed transcription is cleared, and the
state transitions to `LISTENING` exactly when the session handle is
still open. -/
theorem c2_interrupted_clears_everything (ct : ℚ) (s : SessionState)
    (hns : s.isSuspended = false) :
    (handleMessage ct s interruptedEvent).1.audioSources = [] ∧
    (handleMessage ct s interruptedEvent).1.nextStartTime = 0 ∧
    (handleMessage ct s interruptedEvent).1.isSpeaking = false ∧
    (handleMessage ct s interruptedEvent).1.currentInputTranscription = "" ∧
    (handleMessage ct s interruptedEvent).1.currentOutputTranscription = "" ∧
    (handleMessage ct s interruptedEvent).2 =
      [Output.transcriptionUpdate none] ++
        (if s.sessionOpen then [Output.stateChange MochiState.LISTENING none]
         else []) := by
  rw [handleMessage_interrupted ct s hns]
  unfold applyInterrupted
  simp

/-- C2 counterexample (to the claim as stated, over every interrupted
event): while the suspend flag is set, an interrupted event is skipped
entirely — with a segment queued, the tracked set stays nonempty and
nothing is cleared or emitted. -/
theorem c2_counterexample :
    handleMessage 0 { baseState with isSuspended := true, audioSources := [3] }
        interruptedEvent =
      ({ baseState with isSuspended := true, audioSources := [3] }, []) ∧
    ({ baseState with isSuspended := true, audioSources := [3] }
        : SessionState).audioSources ≠ [] := by
  exact ⟨rfl, by simp⟩

/-- C2 witness: the interrupted contract with three queued segments and
an open session. -/
theorem c2_witness :
    (handleMessage 0 speakingSample interruptedEvent).1.audioSources = [] ∧
    (handleMessage 0 speakingSample interruptedEvent).2 =
      [Output.transcriptionUpdate none] ++
        (if speakingSample.sessionOpen
         then [Output.stateChange MochiState.LISTENING none] else []) :=
  have h := c2_interrupted_clears_everything 0 speakingSample rfl
  ⟨h.1, h.2.2.2.2.2⟩

/-- Tool-call handling never touches the suspend flag, the input
accumulator, or the transcription subscription. -/
lemma applyToolCall_preserves (s : SessionState) (tc : ToolCall) :
    (applyToolCall s tc).1.isSuspended = s.isSuspended ∧
    (applyToolCall s tc).1.currentInputTranscription =
      s.currentInputTranscription ∧
    ∀ m, Output.transcriptionUpdate m ∉ (applyToolCall s tc).2 := by
  cases tc <;> simp [applyToolCall]

lemma applyToolCalls_preserves (s : SessionState) (tcs : List ToolCall) :
    (applyToolCalls s tcs).1.isSuspended = s.isSuspended ∧
    (applyToolCalls s tcs).1.currentInputTranscription =
      s.currentInputTranscription ∧
    ∀ m, Output.transcriptionUpdate m ∉ (applyToolCalls s tcs).2 := by
  induction tcs generalizing s with
  | nil => simp [applyToolCalls]
  | cons tc t ih =>
    have h1 := applyToolCall_preserves s tc
    have h2 := ih (applyToolCall s tc).1
    refine ⟨by simp [applyToolCalls, h2.1, h1.1], by simp [applyToolCalls, h2.2.1, h1.2.1], ?_⟩
    intro m hm
    rcases List.mem_append.mp (by simpa [applyToolCalls] using hm) with hma | hmb
    · exact h1.2.2 m hma
    · exact h2.2.2 m hmb

/-- While suspended, inbound audio is dropped. -/
lemma applyAudio_suspended (ct : ℚ) (s : SessionState) (a : Option ℚ)
    (hs : s.isSuspended = true) :
    applyAudio ct s a = (s, []) := by
  cases a <;> simp [applyAudio, hs]

/-- While suspended and without a wake-phrase match, an input delta only
extends the accumulator, silently. -/
lemma applyInputTranscription_suspended (s : SessionState) (t : Option String)
    (hs : s.isSuspended = true)
    (hnw : (match t with
            | some tx =>
              jsIncludes (jsToLower (s.currentInputTranscription ++ tx)) wakePhrase
            | none => false) = false) :
    (applyInputTranscription s t).1.isSuspended = true ∧
    (applyInputTranscription s t).2 = [] := by
  cases t <;> simp_all [applyInputTranscription]

/-- While suspended, output-transcription deltas are dropped. -/
lemma applyOutputTranscription_suspended (s : SessionState) (t : Option String)
    (hs : s.isSuspended = true) :
    applyOutputTranscription s t = (s, []) := by
  cases t <;> simp [applyOutputTranscription, hs]

/-- One arbitrary message handled from a suspended state without a wake
match: still suspended, and no transcription update (null or not) beyond
the tool-call trace — in particular no non-null one. -/
lemma suspended_step (ct : ℚ) (s : SessionState) (e : ServerEvent)
    (hs : s.isSuspended = true) (hnw : wakeTriggered s e = false) :
    (handleMessage ct s e).1.isSuspended = true ∧
    ∀ m, Output.transcriptionUpdate (some m) ∉ (handleMessage ct s e).2 := by
  have hp := applyToolCalls_preserves s e.toolCalls
  have hs1 : (applyToolCalls s e.toolCalls).1.isSuspended = true := by
    rw [hp.1]
    exact hs
  have hnw' : (match e.inputTranscription with
      | some tx =>
        jsIncludes (jsToLower
          ((applyToolCalls s e.toolCalls).1.currentInputTranscription ++ tx))
          wakePhrase
      | none => false) = false := by
    rw [hp.2.1]
    simpa [wakeTriggered, hs] using hnw
  have hi := applyInputTranscription_suspended _ e.inputTranscription hs1 hnw'
  simp only [handleMessage]
  rw [applyAudio_suspended ct _ e.audioData hs1]
  simp only []
  rw [applyOutputTranscription_suspended _ e.outputTranscription hi.1]
  refine ⟨by simp [hi.1], ?_⟩
  intro m hm
  simp only [hi.1, if_true, hi.2, List.append_nil, List.nil_append] at hm
  exact hp.2.2 (some m) hm

/-- A whole wake-free run stays suspended and publishes no transcription
content. -/
lemma suspended_run (ct : ℚ) (es : List ServerEvent) :
    ∀ (s : SessionState), s.isSuspended = true → noWakeRun ct s es = true →
      (handleMessages ct s es).1.isSuspended = true ∧
      ∀ m, Output.transcriptionUpdate (some m) ∉ (handleMessages ct s es).2 := by
  induction es with
  | nil =>
    intro s hs _
    exact ⟨hs, by simp [handleMessages]⟩
  | cons e t ih =>
    intro s hs hnw
    rw [noWakeRun, Bool.and_eq_true] at hnw
    obtain ⟨h1, h2⟩ := hnw
    have hstep := suspended_step ct s e hs (by simpa using h1)
    have hrec := ih (handleMessage ct s e).1 hstep.1 h2
    refine ⟨by simpa [handleMessages] using hrec.1, ?_⟩
    intro m hm
    rcases List.mem_append.mp (by simpa [handleMessages] using hm) with hma | hmb
    · exact hstep.2 m hma
    · exact hrec.2 m hmb

/-- C7: while the suspend flag is true, the transcription-update
subscription never receives non-null content over any wake-free run of
inbound messages (and the state stays suspended); and an input delta
whose accumulated, lower-cased text contains the wake phrase clears the
accumulator, clears the suspend flag, clears the displayed transcription
and moves to `LISTENING`. -/
theorem c7_suspend_wake :
    (∀ (ct : ℚ) (s : SessionState) (es : List ServerEvent),
      s.isSuspended = true → noWakeRun ct s es = true →
      (∀ m, Output.transcriptionUpdate (some m) ∉ (handleMessages ct s es).2) ∧
      (handleMessages ct s es).1.isSuspended = true) ∧
    (∀ (ct : ℚ) (s : SessionState) (t : String),
      s.isSuspended = true → s.sessionOpen = true →
      jsIncludes (jsToLower (s.currentInputTranscription ++ t)) wakePhrase = true →
      handleMessage ct s (inputDeltaEvent t) =
        ({ s with isSuspended := false, currentInputTranscription := "" },
         [Output.transcriptionUpdate none,
          Output.stateChange MochiState.LISTENING (some wakeStatusMsg)])) := by
  constructor
  · intro ct s es hs hnw
    exact ⟨(suspended_run ct es s hs hnw).2, (suspended_run ct es s hs hnw).1⟩
  · intro ct s t hs hopen hw
    simp [handleMessage, inputDeltaEvent, applyToolCalls, applyAudio,
      applyInputTranscription, applyOutputTranscription, applyInterrupted,
      applyTurnComplete, wakeUp, hs, hopen, hw]

/-- C7 witness: a wake-free one-message run from a suspended state, and
the wake delta ` Mochi ơi`. -/
theorem c7_witness :
    ((∀ m, Output.transcriptionUpdate (some m) ∉
        (handleMessages 0 suspendedSample [inputDeltaEvent "xin chào"]).2) ∧
      (handleMessages 0 suspendedSample [inputDeltaEvent "xin chào"]).1.isSuspended
        = true) ∧
    handleMessage 0 suspendedSample (inputDeltaEvent " Mochi ơi") =
      ({ suspendedSample with isSuspended := false, currentInputTranscription := "" },
       [Output.transcriptionUpdate none,
        Output.stateChange MochiState.LISTENING (some wakeStatusMsg)]) :=
  ⟨c7_suspend_wake.1 0 suspendedSample [inputDeltaEvent "xin chào"] rfl (by decide),
   c7_suspend_wake.2 0 suspendedSample " Mochi ơi" rfl rfl (by decide)⟩

/-- C3 (amended): with no release call throwing, `stopLiveSession` on an
already-stopped session performs no release, fires the closing callbacks
and is idempotent (and, every release being guarded by a presence check,
it cannot throw whatever the throw behaviour of the release calls would
be); mid-session it releases the transport, microphone, capture node and
both audio contexts exactly once each.  After a clean stop, a second stop
releases nothing and never throws.  (A release call that does throw
aborts the remaining teardown — see the counterexample.) -/
theorem c3_stop_teardown (s : SessionState) (th : ThrowSpec) (u : Option String) :
    (sessionStopped s = true →
      stopLiveSession s th u =
        { state := resetSessionFlags s, released := [], threw := false,
          outputs := stopTailOutputs u } ∧
      stopLiveSession (stopLiveSession s th u).state th u =
        stopLiveSession s th u) ∧
    (allResourcesOpen s = true → th = noThrowSpec →
      (stopLiveSession s th u).released =
        [ReleasedResource.transport, ReleasedResource.microphone,
         ReleasedResource.scriptProcessor, ReleasedResource.inputContext,
         ReleasedResource.outputContext] ∧
      (stopLiveSession s th u).threw = false) ∧
    ((stopLiveSession s noThrowSpec u).threw = false ∧
      ∀ (th2 : ThrowSpec) (u2 : Option String),
        (stopLiveSession (stopLiveSession s noThrowSpec u).state th2 u2).released
          = [] ∧
        (stopLiveSession (stopLiveSession s noThrowSpec u).state th2 u2).threw
          = false) := by
  obtain ⟨so, mo, po, io, oo, sp, su, ds, nst, srcs, cit, cot, ch⟩ := s
  refine ⟨?_, ?_, ?_⟩
  · intro h
    simp only [sessionStopped, Bool.and_eq_true, Bool.not_eq_true'] at h
    obtain ⟨⟨⟨⟨h1, h2⟩, h3⟩, h4⟩, h5⟩ := h
    subst h1 h2 h3 h4 h5
    exact ⟨rfl, rfl⟩
  · intro h hth
    simp only [allResourcesOpen, Bool.and_eq_true] at h
    obtain ⟨⟨⟨⟨h1, h2⟩, h3⟩, h4⟩, h5⟩ := h
    subst h1 h2 h3 h4 h5
    subst hth
    exact ⟨rfl, rfl⟩
  · refine ⟨?_, ?_⟩
    · cases so <;> cases mo <;> cases po <;> cases io <;> cases oo <;> rfl
    · intro th2 u2
      cases so <;> cases mo <;> cases po <;> cases io <;> cases oo <;>
        exact ⟨rfl, rfl⟩

/-- C3 counterexample (to the claim that every teardown step executes
even if an earlier one throws): mid-session, when the transport `close()`
throws, only the transport release was invoked — the microphone release
never ran and its handle is still set. -/
theorem c3_counterexample :
    (stopLiveSession baseState
        { noThrowSpec with closeThrows := true } none).released =
      [ReleasedResource.transport] ∧
    (stopLiveSession baseState
        { noThrowSpec with closeThrows := true } none).threw = true ∧
    (stopLiveSession baseState
        { noThrowSpec with closeThrows := true } none).state.micOpen = true := by
  exact ⟨rfl, rfl, rfl⟩

/-- C3 witness: the teardown contract on a concrete stopped state and a
concrete mid-session state. -/
theorem c3_witness :
    (stopLiveSession stoppedSample noThrowSpec (some "An") =
      { state := resetSessionFlags stoppedSample, released := [], threw := false,
        outputs := stopTailOutputs (some "An") } ∧
     stopLiveSession (stopLiveSession stoppedSample noThrowSpec (some "An")).state
        noThrowSpec (some "An") =
       stopLiveSession stoppedSample noThrowSpec (some "An")) ∧
    ((stopLiveSession baseState noThrowSpec none).released =
      [ReleasedResource.transport, ReleasedResource.microphone,
       ReleasedResource.scriptProcessor, ReleasedResource.inputContext,
       ReleasedResource.outputContext] ∧
     (stopLiveSession baseState noThrowSpec none).threw = false) :=
  ⟨(c3_stop_teardown stoppedSample noThrowSpec (some "An")).1 (by decide),
   (c3_stop_teardown baseState noThrowSpec none).2.1 (by decide) rfl⟩

/-- A successful fetch caches exactly the data it returns. -/
lemma fetchWeather_ok_cache (cache : Option (CacheEntry WeatherData)) (now : ℤ)
    (lat lon : ℚ) (remote : String → String) (d : WeatherData)
    (c1 : CacheEntry WeatherData) (b : Bool)
    (h : fetchWeather cache now lat lon remote = (Except.ok d, some c1, b)) :
    c1.data = d := by
  unfold fetchWeather at h
  simp only [] at h
  split at h
  · simp_all
  · split at h
    · simp_all
    · split at h
      · simp_all
      · split at h
        · simp_all
        · simp only [Prod.mk.injEq, Except.ok.injEq, Option.some.injEq] at h
          obtain ⟨h1, h2, -⟩ := h
          rw [← h2, h1]

/-- C10: whenever a non-expired cache entry exists, the weather lookup
returns that entry's data without consulting the remote service,
whatever coordinates are passed; in particular a cache populated by a
call with one coordinate pair answers a later in-window call with any
other coordinate pair. -/
theorem c10_cache_ignores_coordinates :
    (∀ (entry : CacheEntry WeatherData) (now : ℤ) (lat lon : ℚ)
        (remote : String → String), now < entry.expiry →
      getWeatherForLocation (some entry) now lat lon remote =
        (Except.ok entry.data, some entry, false)) ∧
    (∀ (now1 : ℤ) (lat1 lon1 : ℚ) (remote1 : String → String)
        (d : WeatherData) (c1 : CacheEntry WeatherData),
      getWeatherForLocation none now1 lat1 lon1 remote1 =
          (Except.ok d, some c1, true) →
      ∀ (now2 : ℤ) (lat2 lon2 : ℚ) (remote2 : String → String),
        now2 < c1.expiry →
        getWeatherForLocation (some c1) now2 lat2 lon2 remote2 =
          (Except.ok d, some c1, false)) := by
  constructor
  · intro entry now lat lon remote h
    simp [getWeatherForLocation, h]
  · intro now1 lat1 lon1 remote1 d c1 h now2 lat2 lon2 remote2 h2
    have hd : c1.data = d :=
      fetchWeather_ok_cache none now1 lat1 lon1 remote1 d c1 true
        (by simpa [getWeatherForLocation] using h)
    simp [getWeatherForLocation, h2, hd]

/-- C10 witness: a cache hit at concrete inputs, and the populate-then-hit
composition with two different coordinate pairs. -/
theorem c10_witness :
    getWeatherForLocation
        (some { data := { temperature := 28, condition := "Nắng", emoji := "☀️" },
                expiry := 99 }) 0 1 2 (fun _ => "") =
      (Except.ok ({ temperature := 28, condition := "Nắng", emoji := "☀️" } : WeatherData),
       some { data := { temperature := 28, condition := "Nắng", emoji := "☀️" },
              expiry := 99 },
       false) ∧
    getWeatherForLocation
        (some { data := { temperature := 28, condition := "Nắng", emoji := "☀️" },
                expiry := WEATHER_CACHE_DURATION }) 7 (-10) 50 (fun _ => "99;x;y") =
      (Except.ok ({ temperature := 28, condition := "Nắng", emoji := "☀️" } : WeatherData),
       some { data := { temperature := 28, condition := "Nắng", emoji := "☀️" },
              expiry := WEATHER_CACHE_DURATION },
       false) := by
  refine ⟨c10_cache_ignores_coordinates.1 _ 0 1 2 _ (by decide), ?_⟩
  exact c10_cache_ignores_coordinates.2 0 21 105 (fun _ => "28;Nắng;☀️")
    { temperature := 28, condition := "Nắng", emoji := "☀️" }
    { data := { temperature := 28, condition := "Nắng", emoji := "☀️" },
      expiry := WEATHER_CACHE_DURATION }
    (by with_unfolding_all rfl) 7 (-10) 50 _ (by decide)

end Mochi
